import Mathlib

/-!
Shallow embedding of `src/proof/supernova.rs` (lurk-rs SuperNova proving
orchestration).

External collaborators (the nova folding library: `RecursiveSNARK::new`,
`RecursiveSNARK::prove_step`, `RecursiveSNARK::verify`,
`CompressedSNARK::{prove, verify, setup}`, `supernova::circuit_digest`,
`SuperNovaPublicParams::setup`) are abstracted as function parameters of the
embedded operations, as the spec declares them out of scope.  Repository code
that is referenced but not present under `src/` (`Lang`, `C1LEM`,
`cache_witness`, `z0_secondary`) is modelled from the spec, as marked on each
definition.  Rust panics (`unwrap` / `expect`) are kept distinct from returned
`Result` errors via the `PanicOr` type.
-/

namespace Supernova

/-- Modelled from the spec: `Lang` (crate::eval::lang, not under src/) is the
shape-family descriptor; this core only consumes its coprocessor count
(the number of auxiliary circuit shapes). -/
structure Lang where
  coprocessor_count : Nat
deriving DecidableEq

/-- `FoldingConfig` from src/proof/supernova.rs lines 338-346: IVC (a single
circuit for every folding step) or NIVC (a fixed set of circuits), each
holding a `Lang` and a reduction count. -/
inductive FoldingConfig where
  | IVC (lang : Lang) (reduction_count : Nat)
  | NIVC (lang : Lang) (reduction_count : Nat)
deriving DecidableEq

/-- `FoldingConfig::new_ivc` (line 351). -/
def FoldingConfig.new_ivc (lang : Lang) (reduction_count : Nat) : FoldingConfig :=
  FoldingConfig.IVC lang reduction_count

/-- `FoldingConfig::new_nivc` (line 357). -/
def FoldingConfig.new_nivc (lang : Lang) (reduction_count : Nat) : FoldingConfig :=
  FoldingConfig.NIVC lang reduction_count

/-- `FoldingConfig::num_circuits` (lines 363-368): 1 for IVC,
`1 + lang.coprocessor_count()` for NIVC. -/
def FoldingConfig.num_circuits : FoldingConfig → Nat
  | FoldingConfig.IVC _ _ => 1
  | FoldingConfig.NIVC lang _ => 1 + lang.coprocessor_count

/-- `FoldingConfig::lang` (lines 371-375). -/
def FoldingConfig.lang : FoldingConfig → Lang
  | FoldingConfig.IVC l _ => l
  | FoldingConfig.NIVC l _ => l

/-- `FoldingConfig::reduction_count` (lines 377-381). -/
def FoldingConfig.reduction_count : FoldingConfig → Nat
  | FoldingConfig.IVC _ rc => rc
  | FoldingConfig.NIVC _ rc => rc

/-- Modelled from the spec: a blank (placeholder-witness) primary circuit
family instance, as produced by `C1LEM::blank(folding_config, pc)`
(crate::proof::nova, not under src/): it is determined by the folding
config and the program counter it was instantiated at. -/
structure BlankCircuit where
  folding_config : FoldingConfig
  pc : Nat
deriving DecidableEq

/-- Modelled from the spec: `C1LEM::blank` constructor. -/
def C1LEM.blank (folding_config : FoldingConfig) (pc : Nat) : BlankCircuit :=
  { folding_config := folding_config, pc := pc }

/-- Modelled from the spec: `C1LEM::num_circuits` delegates to the folding
config's `num_circuits` (1 primary + auxiliary shapes). -/
def BlankCircuit.num_circuits (c : BlankCircuit) : Nat :=
  c.folding_config.num_circuits

/-- Modelled from the spec: the per-index primary circuit obtained from a
blank family by `primary_circuit(circuit_index)`. -/
structure PrimaryCircuit where
  family : BlankCircuit
  circuit_index : Nat
deriving DecidableEq

/-- Modelled from the spec: `C1LEM::primary_circuit`. -/
def BlankCircuit.primary_circuit (c : BlankCircuit) (circuit_index : Nat) : PrimaryCircuit :=
  { family := c, circuit_index := circuit_index }

/-- `circuit_cache_key` (src/proof/supernova.rs lines 390-404).  The nova
digest primitive `supernova::circuit_digest` is external and passed as the
parameter `circuit_digest`.  Mirrors the source exactly: the folding config
handed to `blank` hard-codes reduction count 2 (NOT the `rc` argument), and
the result is `F::from(rc as u64) * circuit_digest(circuit, num_circuits)`.
`rc : Nat` stands for the Rust `usize` (< 2^64, so `rc as u64` is exact) and
the cast into `F` is `Nat.cast`. -/
def circuit_cache_key {F : Type} [CommRing F]
    (circuit_digest : PrimaryCircuit → Nat → F)
    (rc : Nat) (lang : Lang) (circuit_index : Nat) : F :=
  let folding_config := FoldingConfig.new_nivc lang 2
  let circuit := C1LEM.blank folding_config 0
  let num_circuits := circuit.num_circuits
  let circuit2 := circuit.primary_circuit circuit_index
  (rc : F) * circuit_digest circuit2 num_circuits

/-- The `Proof` enum (src/proof/supernova.rs lines 131-143): either a
`Recursive` SNARK or a `Compressed` SNARK.  The payload types are the
external nova proof objects, abstracted as type parameters. -/
inductive Proof (R Cmp : Type) where
  | Recursive (snark : R)
  | Compressed (snark : Cmp)
deriving DecidableEq

/-- The scheme-level verification dispatch inside `Proof::verify`
(lines 299-302): `RecursiveSNARK::verify` for a `Recursive` proof,
`CompressedSNARK::verify` for a `Compressed` proof, both called with the
claimed primary initial input and the fixed secondary initial input, and
returning (on success) the attested primary and secondary outputs.  The two
external verifiers are the parameters `recVerify` and `compVerify`. -/
def Proof.underlying_verify {F Fsec R Cmp E : Type}
    (recVerify : R → List F → List Fsec → Except E (List F × List Fsec))
    (compVerify : Cmp → List F → List Fsec → Except E (List F × List Fsec))
    (z0_primary : List F) (z0_secondary : List Fsec) :
    Proof R Cmp → Except E (List F × List Fsec)
  | Proof.Recursive p => recVerify p z0_primary z0_secondary
  | Proof.Compressed p => compVerify p z0_primary z0_secondary

/-- `Proof::verify` (src/proof/supernova.rs lines 294-305): run the
underlying scheme verification (propagating its error via `?`), then return
`Ok(zi_primary == zi_primary_verified && zi_secondary == zi_secondary_verified)`
where `zi_secondary` is the fixed `z0_secondary` (modelled from the spec as a
parameter: `Self::z0_secondary()` lives in proof/mod.rs, not under src/). -/
def Proof.verify {F Fsec R Cmp E : Type} [DecidableEq F] [DecidableEq Fsec]
    (recVerify : R → List F → List Fsec → Except E (List F × List Fsec))
    (compVerify : Cmp → List F → List Fsec → Except E (List F × List Fsec))
    (z0_secondary : List Fsec) (p : Proof R Cmp) (z0 zi : List F) :
    Except E Bool :=
  match p.underlying_verify recVerify compVerify z0 z0_secondary with
  | Except.error e => Except.error e
  | Except.ok (zi_primary_verified, zi_secondary_verified) =>
      Except.ok (decide (zi = zi_primary_verified)
        && decide (z0_secondary = zi_secondary_verified))

/-- `Proof::compress` (src/proof/supernova.rs lines 280-292): a `Recursive`
proof is compressed by the external `CompressedSNARK::prove` (parameter
`prove`; its error propagates via `?`), a `Compressed` proof is returned
unchanged. -/
def Proof.compress {R Cmp E : Type} (prove : R → Except E Cmp) :
    Proof R Cmp → Except E (Proof R Cmp)
  | Proof.Recursive recursive_snark =>
      (prove recursive_snark).map Proof.Compressed
  | Proof.Compressed c => Except.ok (Proof.Compressed c)

/-- Number of times the body of `Proof::compress` invokes the compression
SNARK prover `CompressedSNARK::prove`: the `Recursive` arm (lines 282-289)
contains exactly one call, the `Compressed` arm (line 290) none. -/
def Proof.compressProverCalls {R Cmp : Type} : Proof R Cmp → Nat
  | Proof.Recursive _ => 1
  | Proof.Compressed _ => 0

/-- Result of a Rust function that can also panic (`unwrap` / `expect`):
either the returned value or a panic with its message. -/
inductive PanicOr (A : Type) where
  | ret (a : A)
  | panicked (msg : String)
deriving DecidableEq

/-- The `PublicParams` struct (src/proof/supernova.rs lines 50-62): nova
public params plus the compression SNARK prover and verifier keys. -/
structure PublicParamsS (PP PK VK : Type) where
  pp : PP
  pk : PK
  vk : VK
deriving DecidableEq

/-- `public_params` (src/proof/supernova.rs lines 104-126): builds an NIVC
folding config from `(rc, lang)`, instantiates the blank circuit family,
derives the nova public params (external `SuperNovaPublicParams::setup`
together with the two commitment-size hints, abstracted as `ppSetup`), then
derives the compression SNARK keys with the external
`CompressedSNARK::setup` (parameter `snarkSetup`) and UNWRAPS the result
(line 124): a setup failure is a panic, not a returned error — the Rust
signature returns bare `PublicParams` with no error channel. -/
def public_params {PP PK VK E : Type}
    (ppSetup : BlankCircuit → PP)
    (snarkSetup : PP → Except E (PK × VK))
    (rc : Nat) (lang : Lang) : PanicOr (PublicParamsS PP PK VK) :=
  let folding_config := FoldingConfig.new_nivc lang rc
  let non_uniform_circuit := C1LEM.blank folding_config 0
  let pp := ppSetup non_uniform_circuit
  match snarkSetup pp with
  | Except.ok (pk, vk) => PanicOr.ret { pp := pp, pk := pk, vk := vk }
  | Except.error _ => PanicOr.panicked "called Result::unwrap on an Err value"

/-- A step circuit handed to the fold loop (a `C1LEM` value, crate::proof::nova,
not under src/).  What `prove_recursively` observes of it: its program counter
(`program_counter()`, line 227), its opaque circuit payload (frames etc.,
type parameter `A`), and its witness slot.  Modelled from the spec: the
witness is lazily computed, expensive, cacheable. -/
structure StepCircuit (A W : Type) where
  program_counter : Nat
  frames : A
  cached_witness : Option W
deriving DecidableEq

/-- Modelled from the spec: `cache_witness` (invoked at lines 243 and 258)
precomputes the step's witness from its payload (the external witness
generator is the parameter `wf`) and stores it in the cache slot; a step
whose witness is already cached is left unchanged. -/
def StepCircuit.cache_witness {A W : Type} (wf : A → W) (s : StepCircuit A W) :
    StepCircuit A W :=
  match s.cached_witness with
  | some _ => s
  | none => { s with cached_witness := some (wf s.frames) }

/-- The witness value a step contributes when it is folded: the cached one if
present, otherwise computed on demand from the payload. -/
def StepCircuit.witness {A W : Type} (wf : A → W) (s : StepCircuit A W) : W :=
  s.cached_witness.getD (wf s.frames)

/-- Everything of a step that the external folding operations
(`RecursiveSNARK::new` / `prove_step`) consume: program counter, circuit
payload, and the witness value. -/
structure StepView (A W : Type) where
  pc : Nat
  frames : A
  witness : W
deriving DecidableEq

/-- The view of a step as consumed by the fold operations. -/
def StepCircuit.view {A W : Type} (wf : A → W) (s : StepCircuit A W) :
    StepView A W :=
  { pc := s.program_counter, frames := s.frames, witness := s.witness wf }

/-- Observable events of the fold loop: creation of the accumulator by
`RecursiveSNARK::new` at step `i` (recording the circuit passed as the
current and as the initial instance, and the initial public input), and the
fold of step `i` by `RecursiveSNARK::prove_step`. -/
inductive FoldEvent (F A W : Type) where
  | newAcc (i : Nat) (current initial : StepView A W) (z0 : List F)
  | fold (i : Nat) (step : StepView A W)
deriving DecidableEq

/-- The `prove_step` closure (src/proof/supernova.rs lines 192-217): if no
recursive SNARK exists yet, create one with `RecursiveSNARK::new(pp, step,
step, secondary, z0_primary, z0_secondary)` (external, parameter `newAcc`;
note the step is passed as both the current and the initial circuit), then
fold the step with `RecursiveSNARK::prove_step` (external, parameter
`foldStep`) and store the result.  The state also carries the event trace. -/
def prove_step {F A W Acc : Type}
    (newAcc : StepView A W → StepView A W → List F → Acc)
    (foldStep : Acc → StepView A W → Acc)
    (wf : A → W) (z0 : List F) (i : Nat)
    (state : Option Acc × List (FoldEvent F A W)) (step : StepCircuit A W) :
    Option Acc × List (FoldEvent F A W) :=
  let v := step.view wf
  match state.1 with
  | none =>
      let recursive_snark := newAcc v v z0
      (some (foldStep recursive_snark v),
        state.2 ++ [FoldEvent.newAcc i v v z0, FoldEvent.fold i v])
  | some recursive_snark =>
      (some (foldStep recursive_snark v), state.2 ++ [FoldEvent.fold i v])

/-- The enumerated loop over the steps (lines 263-265 in the parallel path,
lines 269-271 in the sequential path): `prove_step` applied to each step in
order, with its index. -/
def prove_loop {F A W Acc : Type}
    (newAcc : StepView A W → StepView A W → List F → Acc)
    (foldStep : Acc → StepView A W → Acc)
    (wf : A → W) (z0 : List F) :
    Nat → Option Acc × List (FoldEvent F A W) → List (StepCircuit A W) →
      Option Acc × List (FoldEvent F A W)
  | _, state, [] => state
  | i, state, s :: rest =>
      prove_loop newAcc foldStep wf z0 (i + 1)
        (prove_step newAcc foldStep wf z0 i state s) rest

/-- The background caching of every step after the first (the `skip(1)` at
lines 238 and 253), abstracted over an arbitrary interleaving: `sched i`
says whether the producer finished caching step `i` before the consumer
locked it.  The pc = 0 / pc ≠ 0 partition of the producer only affects
timing, i.e. `sched`. -/
def precacheFrom {A W : Type} (wf : A → W) (sched : Nat → Bool) :
    Nat → List (StepCircuit A W) → List (StepCircuit A W)
  | _, [] => []
  | i, s :: rest =>
      (if sched i then s.cache_witness wf else s) ::
        precacheFrom wf sched (i + 1) rest

/-- The parallel path wraps the steps and lets the producer cache witnesses
of every step but step 0 (deliberately skipped, lines 232-233). -/
def precache {A W : Type} (wf : A → W) (sched : Nat → Bool) :
    List (StepCircuit A W) → List (StepCircuit A W)
  | [] => []
  | s0 :: rest => s0 :: precacheFrom wf sched 1 rest

/-- `Proof::prove_recursively` (src/proof/supernova.rs lines 179-278): if the
step-level-parallelism flag (`lurk_config(...).perf.parallelism.recursive_steps
.is_parallel()`, here the `parallel` argument) is set, the steps are handed to
the background witness-caching producer while the main loop folds them in
order; otherwise they are folded in order directly.  The final accumulator is
wrapped as `Ok(Proof::Recursive(...))`; if none was produced (empty step
sequence) the source panics via `.expect("RecursiveSNARK missing")`
(line 276).  Returns the result together with the fold-event trace. -/
def prove_recursively {F A W Acc Cmp E : Type}
    (parallel : Bool) (sched : Nat → Bool)
    (newAcc : StepView A W → StepView A W → List F → Acc)
    (foldStep : Acc → StepView A W → Acc)
    (wf : A → W) (z0 : List F) (steps : List (StepCircuit A W)) :
    PanicOr (Except E (Proof Acc Cmp)) × List (FoldEvent F A W) :=
  match prove_loop newAcc foldStep wf z0 0 (none, [])
      (if parallel then precache wf sched steps else steps) with
  | (some recursive_snark, trace) =>
      (PanicOr.ret (Except.ok (Proof.Recursive recursive_snark)), trace)
  | (none, trace) => (PanicOr.panicked "RecursiveSNARK missing", trace)

/-- The accumulator value obtained by folding a list of steps, in order, into
a starting accumulator (specification vocabulary for the fold loop). -/
def foldAcc {A W Acc : Type} (foldStep : Acc → StepView A W → Acc)
    (wf : A → W) : Acc → List (StepCircuit A W) → Acc
  | acc, [] => acc
  | acc, s :: rest => foldAcc foldStep wf (foldStep acc (s.view wf)) rest

/-- The expected trace of fold events for a list of steps starting at index
`i`: one fold per step, indices strictly increasing (specification
vocabulary). -/
def foldTrace {F A W : Type} (wf : A → W) :
    Nat → List (StepCircuit A W) → List (FoldEvent F A W)
  | _, [] => []
  | i, s :: rest => FoldEvent.fold i (s.view wf) :: foldTrace wf (i + 1) rest

/-! Helper lemmas (shared; not claim theorems). -/

theorem StepCircuit.view_cache_witness {A W : Type} (wf : A → W)
    (s : StepCircuit A W) : (s.cache_witness wf).view wf = s.view wf := by
  cases s with
  | mk pc fr cw =>
      cases cw <;>
        simp [StepCircuit.cache_witness, StepCircuit.view, StepCircuit.witness]

theorem prove_step_cache_witness {F A W Acc : Type}
    (newAcc : StepView A W → StepView A W → List F → Acc)
    (foldStep : Acc → StepView A W → Acc)
    (wf : A → W) (z0 : List F) (i : Nat)
    (state : Option Acc × List (FoldEvent F A W)) (s : StepCircuit A W) :
    prove_step newAcc foldStep wf z0 i state (s.cache_witness wf)
      = prove_step newAcc foldStep wf z0 i state s := by
  unfold prove_step
  rw [StepCircuit.view_cache_witness]

theorem prove_loop_precacheFrom {F A W Acc : Type}
    (newAcc : StepView A W → StepView A W → List F → Acc)
    (foldStep : Acc → StepView A W → Acc)
    (wf : A → W) (z0 : List F) (sched : Nat → Bool)
    (l : List (StepCircuit A W)) :
    ∀ (i j : Nat) (st : Option Acc × List (FoldEvent F A W)),
      prove_loop newAcc foldStep wf z0 i st (precacheFrom wf sched j l)
        = prove_loop newAcc foldStep wf z0 i st l := by
  induction l with
  | nil => intro i j st; rfl
  | cons s rest ih =>
      intro i j st
      unfold precacheFrom prove_loop
      rw [ih (i + 1) (j + 1)]
      cases h : sched j <;> simp [h, prove_step_cache_witness]

theorem prove_loop_precache {F A W Acc : Type}
    (newAcc : StepView A W → StepView A W → List F → Acc)
    (foldStep : Acc → StepView A W → Acc)
    (wf : A → W) (z0 : List F) (sched : Nat → Bool)
    (steps : List (StepCircuit A W)) (i : Nat)
    (st : Option Acc × List (FoldEvent F A W)) :
    prove_loop newAcc foldStep wf z0 i st (precache wf sched steps)
      = prove_loop newAcc foldStep wf z0 i st steps := by
  cases steps with
  | nil => rfl
  | cons s0 rest =>
      unfold precache prove_loop
      rw [prove_loop_precacheFrom]

theorem prove_loop_some {F A W Acc : Type}
    (newAcc : StepView A W → StepView A W → List F → Acc)
    (foldStep : Acc → StepView A W → Acc)
    (wf : A → W) (z0 : List F) (l : List (StepCircuit A W)) :
    ∀ (i : Nat) (acc : Acc) (tr : List (FoldEvent F A W)),
      prove_loop newAcc foldStep wf z0 i (some acc, tr) l
        = (some (foldAcc foldStep wf acc l), tr ++ foldTrace wf i l) := by
  induction l with
  | nil => intro i acc tr; simp [prove_loop, foldAcc, foldTrace]
  | cons s rest ih =>
      intro i acc tr
      unfold prove_loop prove_step foldAcc foldTrace
      simp only []
      rw [ih]
      simp

/-! Claim theorems. -/

/-- C7: for every valid `FoldingConfig`, `num_circuits()` returns 1 for the
uniform (IVC) variant and `1 + coprocessor_count` (one primary circuit plus
the `Lang`'s auxiliary shapes) for the non-uniform (NIVC) variant. -/
theorem supernova_C7_num_circuits (lang : Lang) (rc : Nat) :
    (FoldingConfig.new_ivc lang rc).num_circuits = 1
    ∧ (FoldingConfig.new_nivc lang rc).num_circuits
        = 1 + lang.coprocessor_count :=
  ⟨rfl, rfl⟩

/-- C9: `circuit_cache_key(rc, lang, i)` is `F::from(rc)` times an
rc-independent structural digest (the blank family is instantiated with the
hard-coded reduction count 2, so `circuit_cache_key 1` is exactly that
digest): the key is linear in `rc`, the key at `rc = 0` is the zero field
element, and any two reduction counts whose images in the field coincide
yield identical keys. -/
theorem supernova_C9_cache_key_linear {F : Type} [CommRing F]
    (d : PrimaryCircuit → Nat → F) (lang : Lang) (i rc rc1 rc2 : Nat) :
    circuit_cache_key d rc lang i = (rc : F) * circuit_cache_key d 1 lang i
    ∧ circuit_cache_key d 0 lang i = 0
    ∧ ((rc1 : F) = (rc2 : F) →
        circuit_cache_key d rc1 lang i = circuit_cache_key d rc2 lang i) := by
  refine ⟨?_, ?_, ?_⟩
  · simp [circuit_cache_key]
  · simp [circuit_cache_key]
  · intro h
    simp only [circuit_cache_key]
    rw [h]

/-- C9 witness: the three parts evaluated at a concrete digest function,
`lang` with one coprocessor and reduction counts 5 and 7 over `ℚ`. -/
theorem supernova_C9_cache_key_linear_witness :
    circuit_cache_key (fun _ _ => (3 : ℚ)) 5 (Lang.mk 1) 0
      = (5 : ℚ) * circuit_cache_key (fun _ _ => (3 : ℚ)) 1 (Lang.mk 1) 0
    ∧ circuit_cache_key (fun _ _ => (3 : ℚ)) 0 (Lang.mk 1) 0 = 0
    ∧ circuit_cache_key (fun _ _ => (3 : ℚ)) 7 (Lang.mk 1) 0
      = circuit_cache_key (fun _ _ => (3 : ℚ)) 7 (Lang.mk 1) 0 :=
  ⟨(supernova_C9_cache_key_linear (fun _ _ => (3 : ℚ)) (Lang.mk 1) 0 5 7 7).1,
   (supernova_C9_cache_key_linear (fun _ _ => (3 : ℚ)) (Lang.mk 1) 0 5 7 7).2.1,
   (supernova_C9_cache_key_linear (fun _ _ => (3 : ℚ)) (Lang.mk 1) 0 5 7 7).2.2 rfl⟩

/-- C4 counterexample: `circuit_cache_key` multiplies the structural digest
by `F::from(rc)`, so when the digest of a shape is the zero field element the
keys for two distinct reduction counts (here 1 and 2, over `ℚ`, where the
natural-number casts of 1 and 2 are certainly distinct) coincide: changing
the step-size parameter does NOT necessarily change every digest in the
family. -/
theorem supernova_C4_counterexample :
    circuit_cache_key (fun _ _ => (0 : ℚ)) 1 (Lang.mk 0) 0
      = circuit_cache_key (fun _ _ => (0 : ℚ)) 2 (Lang.mk 0) 0
    ∧ (1 : Nat) ≠ 2 := by
  constructor
  · simp [circuit_cache_key]
  · decide

/-- C4 amended: `circuit_cache_key` is deterministic (a pure function of its
arguments), and two distinct reduction counts yield distinct keys PROVIDED
the structural digest of the shape (the key at reduction count 1) is nonzero
and the two counts map to distinct field elements (true for all usize values
when the field characteristic exceeds 2^64). -/
theorem supernova_C4_amended_cache_key {F : Type} [Field F]
    (d : PrimaryCircuit → Nat → F) (lang : Lang) (i rc rc1 rc2 : Nat) :
    circuit_cache_key d rc lang i = circuit_cache_key d rc lang i
    ∧ (circuit_cache_key d 1 lang i ≠ 0 → (rc1 : F) ≠ (rc2 : F) →
        circuit_cache_key d rc1 lang i ≠ circuit_cache_key d rc2 lang i) := by
  refine ⟨rfl, ?_⟩
  intro hD hne heq
  simp only [circuit_cache_key, Nat.cast_one, one_mul] at hD heq
  exact hne (mul_right_cancel₀ hD heq)

/-- C4 amended witness: with digest constantly 3 over `ℚ`, reduction counts
1 and 2 give distinct keys. -/
theorem supernova_C4_amended_cache_key_witness :
    circuit_cache_key (fun _ _ => (3 : ℚ)) 1 (Lang.mk 0) 0
      ≠ circuit_cache_key (fun _ _ => (3 : ℚ)) 2 (Lang.mk 0) 0 :=
  (supernova_C4_amended_cache_key (fun _ _ => (3 : ℚ)) (Lang.mk 0) 0 1 1 2).2
    (by simp [circuit_cache_key]) (by norm_num)

/-- C2: `compress` is idempotent on an already-compressed proof — it returns
it unchanged and its match arm contains zero invocations of the compression
prover — while on a `Recursive` proof the arm invokes the prover exactly
once and, whenever the prover succeeds, the result is the corresponding
`Compressed` proof. -/
theorem supernova_C2_compress_idempotent {R Cmp E : Type}
    (prove : R → Except E Cmp) (c : Cmp) (r : R) :
    Proof.compress prove (Proof.Compressed c) = Except.ok (Proof.Compressed c)
    ∧ Proof.compressProverCalls (Proof.Compressed c : Proof R Cmp) = 0
    ∧ Proof.compressProverCalls (Proof.Recursive r : Proof R Cmp) = 1
    ∧ (∀ c2, prove r = Except.ok c2 →
        Proof.compress prove (Proof.Recursive r)
          = Except.ok (Proof.Compressed c2)) := by
  refine ⟨rfl, rfl, rfl, ?_⟩
  intro c2 h
  simp [Proof.compress, h, Except.map]

/-- C2 witness: the recursive arm evaluated at a concrete always-succeeding
prover. -/
theorem supernova_C2_compress_idempotent_witness :
    Proof.compress (fun _ : Unit => (Except.ok () : Except Unit Unit))
        (Proof.Recursive ()) = Except.ok (Proof.Compressed ()) :=
  (supernova_C2_compress_idempotent
    (fun _ : Unit => (Except.ok () : Except Unit Unit)) () ()).2.2.2 () rfl

/-- C1 counterexample: the claimed if-and-only-if fails in the backward
direction.  Here the underlying scheme verification succeeds and the claimed
`zi = [0]` equals the attested primary output `[0]`, yet `verify` returns
`Ok(false)`, because the attested secondary output `[1]` differs from the
fixed secondary initial input `[0]` (line 304 also compares the secondary
outputs). -/
theorem supernova_C1_counterexample :
    Proof.verify
        (fun (_ : Unit) (_ : List Nat) (_ : List Nat) =>
          (Except.ok ([0], [1]) : Except Unit (List Nat × List Nat)))
        (fun _ _ _ => Except.ok ([0], [1]))
        [0] (Proof.Recursive () : Proof Unit Unit) [0] [0]
      = Except.ok false
    ∧ (Proof.Recursive () : Proof Unit Unit).underlying_verify
        (fun _ _ _ => (Except.ok ([0], [1]) : Except Unit (List Nat × List Nat)))
        (fun _ _ _ => Except.ok ([0], [1])) [0] [0]
      = Except.ok ([0], [1]) :=
  ⟨rfl, rfl⟩

/-- C1 amended: `Proof::verify` returns `Ok(true)` iff the underlying scheme
verification (`RecursiveSNARK::verify` for a `Recursive` proof,
`CompressedSNARK::verify` for a `Compressed` proof) succeeds, the claimed
`zi` equals the attested primary output, AND the attested secondary output
equals the fixed secondary initial input; a tampered `zi` yields `Ok(false)`,
never `Ok(true)`. -/
theorem supernova_C1_amended_verify_iff {F Fsec R Cmp E : Type}
    [DecidableEq F] [DecidableEq Fsec]
    (recVerify : R → List F → List Fsec → Except E (List F × List Fsec))
    (compVerify : Cmp → List F → List Fsec → Except E (List F × List Fsec))
    (z0s : List Fsec) (p : Proof R Cmp) (z0 zi : List F) :
    (Proof.verify recVerify compVerify z0s p z0 zi = Except.ok true ↔
      (∃ zip zis,
        p.underlying_verify recVerify compVerify z0 z0s = Except.ok (zip, zis)
          ∧ zi = zip ∧ z0s = zis))
    ∧ (∀ zip zis,
        p.underlying_verify recVerify compVerify z0 z0s = Except.ok (zip, zis) →
        zi ≠ zip →
        Proof.verify recVerify compVerify z0s p z0 zi = Except.ok false) := by
  unfold Proof.verify
  cases hu : p.underlying_verify recVerify compVerify z0 z0s with
  | error e =>
      constructor
      · simp
      · intro zip zis h
        simp at h
  | ok pr =>
      obtain ⟨zp, zs⟩ := pr
      constructor
      · constructor
        · intro h
          simp only [Except.ok.injEq, Bool.and_eq_true, decide_eq_true_eq] at h
          exact ⟨zp, zs, rfl, h.1, h.2⟩
        · rintro ⟨zip, zis, heq, h1, h2⟩
          rw [Except.ok.injEq, Prod.mk.injEq] at heq
          subst h1
          subst h2
          simp [heq.1, heq.2]
      · intro zip zis heq hne
        rw [Except.ok.injEq, Prod.mk.injEq] at heq
        have e1 := heq.1
        subst e1
        simp [hne]

/-- C1 amended witness: a tampered primary output (`zi = [1]` against
attested `[0]`) makes `verify` return `Ok(false)`. -/
theorem supernova_C1_amended_verify_iff_witness :
    Proof.verify
        (fun (_ : Unit) (_ : List Nat) (_ : List Nat) =>
          (Except.ok ([0], [0]) : Except Unit (List Nat × List Nat)))
        (fun _ _ _ => Except.ok ([0], [0]))
        [0] (Proof.Recursive () : Proof Unit Unit) [0] [1]
      = Except.ok false :=
  (supernova_C1_amended_verify_iff
      (fun (_ : Unit) (_ : List Nat) (_ : List Nat) =>
        (Except.ok ([0], [0]) : Except Unit (List Nat × List Nat)))
      (fun _ _ _ => Except.ok ([0], [0]))
      [0] (Proof.Recursive ()) [0] [1]).2 [0] [0] rfl (by decide)

/-- C10: `Proof::verify` returns `Ok(true)` only if the attested secondary
output equals the fixed secondary initial input `z0_secondary`; whenever the
attested secondary output differs from `z0_secondary`, `verify` returns
`Ok(false)` even if the primary outputs match. -/
theorem supernova_C10_secondary_output_check {F Fsec R Cmp E : Type}
    [DecidableEq F] [DecidableEq Fsec]
    (recVerify : R → List F → List Fsec → Except E (List F × List Fsec))
    (compVerify : Cmp → List F → List Fsec → Except E (List F × List Fsec))
    (z0s : List Fsec) (p : Proof R Cmp) (z0 zi : List F) :
    (∀ zip zis,
        p.underlying_verify recVerify compVerify z0 z0s = Except.ok (zip, zis) →
        Proof.verify recVerify compVerify z0s p z0 zi = Except.ok true →
        z0s = zis)
    ∧ (∀ zip zis,
        p.underlying_verify recVerify compVerify z0 z0s = Except.ok (zip, zis) →
        z0s ≠ zis →
        Proof.verify recVerify compVerify z0s p z0 zi = Except.ok false) := by
  unfold Proof.verify
  constructor
  · intro zip zis heq hver
    rw [heq] at hver
    simp only [Bool.and_eq_true, decide_eq_true_eq, Except.ok.injEq] at hver
    exact hver.2
  · intro zip zis heq hne
    rw [heq]
    simp [hne]

/-- C10 witness: attested secondary output `[1]` differs from the fixed
secondary initial input `[0]`, so `verify` returns `Ok(false)` although the
primary outputs match. -/
theorem supernova_C10_secondary_output_check_witness :
    Proof.verify
        (fun (_ : Unit) (_ : List Nat) (_ : List Nat) =>
          (Except.ok ([2], [1]) : Except Unit (List Nat × List Nat)))
        (fun _ _ _ => Except.ok ([2], [1]))
        [0] (Proof.Recursive () : Proof Unit Unit) [0] [2]
      = Except.ok false :=
  (supernova_C10_secondary_output_check
      (fun (_ : Unit) (_ : List Nat) (_ : List Nat) =>
        (Except.ok ([2], [1]) : Except Unit (List Nat × List Nat)))
      (fun _ _ _ => Except.ok ([2], [1]))
      [0] (Proof.Recursive ()) [0] [2]).2 [2] [1] rfl (by decide)

/-- Shared helper: the parallel path of `prove_recursively` (background
witness caching under any interleaving `sched`) returns exactly what the
sequential path returns — caching a witness does not change the view the
fold operations consume. -/
theorem prove_recursively_parallel_eq {F A W Acc Cmp E : Type}
    (sched sched2 : Nat → Bool)
    (newAcc : StepView A W → StepView A W → List F → Acc)
    (foldStep : Acc → StepView A W → Acc)
    (wf : A → W) (z0 : List F) (steps : List (StepCircuit A W)) :
    @prove_recursively F A W Acc Cmp E true sched newAcc foldStep wf z0 steps
      = @prove_recursively F A W Acc Cmp E false sched2 newAcc foldStep wf z0
          steps := by
  unfold prove_recursively
  rw [show (if (true : Bool) then precache wf sched steps else steps)
        = precache wf sched steps from rfl,
      show (if (false : Bool) then precache wf sched2 steps else steps)
        = steps from rfl,
      prove_loop_precache]

/-- C3: for every step sequence and initial input, `prove_recursively` with
the step-level-parallelism flag enabled produces the same final `Recursive`
proof value as with the flag disabled, for every interleaving of the
background witness-caching producer with the fold loop. -/
theorem supernova_C3_scheduling_equivalence {F A W Acc Cmp E : Type}
    (sched sched2 : Nat → Bool)
    (newAcc : StepView A W → StepView A W → List F → Acc)
    (foldStep : Acc → StepView A W → Acc)
    (wf : A → W) (z0 : List F) (steps : List (StepCircuit A W)) :
    (@prove_recursively F A W Acc Cmp E true sched newAcc foldStep wf z0
        steps).1
      = (@prove_recursively F A W Acc Cmp E false sched2 newAcc foldStep wf z0
          steps).1 := by
  rw [prove_recursively_parallel_eq sched sched2]

/-- C5 counterexample: on the empty step sequence, `prove_recursively`
panics (the source's `.expect("RecursiveSNARK missing")`, line 276) instead
of returning an error value through its `Result` channel: the outcome is
`PanicOr.panicked`, not `PanicOr.ret (Except.error ...)`. -/
theorem supernova_C5_counterexample :
    (@prove_recursively Nat Nat Nat Nat Unit Unit false (fun _ => false)
        (fun _ _ _ => 0) (fun a _ => a) (fun n => n) [] []).1
      = PanicOr.panicked "RecursiveSNARK missing"
    ∧ (@prove_recursively Nat Nat Nat Nat Unit Unit false (fun _ => false)
        (fun _ _ _ => 0) (fun a _ => a) (fun n => n) [] []).1
      ≠ PanicOr.ret (Except.error ()) :=
  ⟨rfl, fun h => nomatch h⟩

/-- C5 amended: for an empty step sequence, `prove_recursively` fails —
it never returns a proof and never produces an empty-but-complete
accumulator — but the failure is a panic with the defined message
`RecursiveSNARK missing` (an `expect` on the absent accumulator), not an
error value returned through the `Result` channel.  Holds on both the
sequential and the background-caching path. -/
theorem supernova_C5_amended_empty_steps {F A W Acc Cmp E : Type}
    (parallel : Bool) (sched : Nat → Bool)
    (newAcc : StepView A W → StepView A W → List F → Acc)
    (foldStep : Acc → StepView A W → Acc)
    (wf : A → W) (z0 : List F) :
    (@prove_recursively F A W Acc Cmp E parallel sched newAcc foldStep wf z0
        []).1
      = PanicOr.panicked "RecursiveSNARK missing" := by
  cases parallel <;> rfl

/-- C6 counterexample: when the compression SNARK key derivation
(`CompressedSNARK::setup`, line 124) fails, `public_params` panics (the
source unwraps the `Result`); it does not surface the failure as an error
value — its Rust signature returns bare `PublicParams` and has no error
channel at all, as witnessed by the outcome differing from every possible
returned value (here the only inhabitant of the return type). -/
theorem supernova_C6_counterexample :
    @public_params Unit Unit Unit Unit (fun _ => ()) (fun _ => Except.error ())
        2 (Lang.mk 0)
      = PanicOr.panicked "called Result::unwrap on an Err value"
    ∧ @public_params Unit Unit Unit Unit (fun _ => ())
        (fun _ => Except.error ()) 2 (Lang.mk 0)
      ≠ PanicOr.ret (PublicParamsS.mk () () ()) :=
  ⟨rfl, fun h => nomatch h⟩

/-- C6 amended: `public_params` invokes the compression SNARK key derivation
once; if it fails, `public_params` panics via `unwrap` (fatal, not retried,
not returned as an error value), and if it succeeds, the keys are packaged
with the nova public parameters and returned. -/
theorem supernova_C6_amended_public_params {PP PK VK E : Type}
    (ppSetup : BlankCircuit → PP) (snarkSetup : PP → Except E (PK × VK))
    (rc : Nat) (lang : Lang) :
    (∀ e,
        snarkSetup (ppSetup (C1LEM.blank (FoldingConfig.new_nivc lang rc) 0))
          = Except.error e →
        public_params ppSetup snarkSetup rc lang
          = PanicOr.panicked "called Result::unwrap on an Err value")
    ∧ (∀ pk vk,
        snarkSetup (ppSetup (C1LEM.blank (FoldingConfig.new_nivc lang rc) 0))
          = Except.ok (pk, vk) →
        public_params ppSetup snarkSetup rc lang
          = PanicOr.ret (PublicParamsS.mk
              (ppSetup (C1LEM.blank (FoldingConfig.new_nivc lang rc) 0))
              pk vk)) := by
  constructor
  · intro e h
    simp only [public_params]
    rw [h]
  · intro pk vk h
    simp only [public_params]
    rw [h]

/-- C6 amended witness: a concretely failing key derivation makes
`public_params` panic. -/
theorem supernova_C6_amended_public_params_witness :
    @public_params Unit Unit Unit Unit (fun _ => ())
        (fun _ => Except.error ()) 3 (Lang.mk 1)
      = PanicOr.panicked "called Result::unwrap on an Err value" :=
  (supernova_C6_amended_public_params (fun _ => ())
    (fun _ => Except.error ()) 3 (Lang.mk 1)).1 () rfl

/-- C8: for every non-empty step sequence and on both control paths, the
fold loop creates the accumulator exactly once, at step 0, by calling the
scheme constructor with step 0's circuit view passed as both the current
and the initial instance together with the global initial input `z0`, and
then folds every step (step 0 included) strictly in increasing index order:
the event trace is exactly one `newAcc` at index 0 followed by the in-order
fold events, and the final accumulator is the corresponding left fold. -/
theorem supernova_C8_fold_order {F A W Acc Cmp E : Type}
    (parallel : Bool) (sched : Nat → Bool)
    (newAcc : StepView A W → StepView A W → List F → Acc)
    (foldStep : Acc → StepView A W → Acc)
    (wf : A → W) (z0 : List F)
    (s0 : StepCircuit A W) (rest : List (StepCircuit A W)) :
    @prove_recursively F A W Acc Cmp E parallel sched newAcc foldStep wf z0
        (s0 :: rest)
      = (PanicOr.ret (Except.ok (Proof.Recursive
            (foldAcc foldStep wf
              (foldStep (newAcc (s0.view wf) (s0.view wf) z0) (s0.view wf))
              rest))),
         FoldEvent.newAcc 0 (s0.view wf) (s0.view wf) z0
           :: foldTrace wf 0 (s0 :: rest)) := by
  have key : prove_loop newAcc foldStep wf z0 0 (none, []) (s0 :: rest)
      = (some (foldAcc foldStep wf
            (foldStep (newAcc (s0.view wf) (s0.view wf) z0) (s0.view wf))
            rest),
         FoldEvent.newAcc 0 (s0.view wf) (s0.view wf) z0
           :: foldTrace wf 0 (s0 :: rest)) := by
    unfold prove_loop prove_step
    rw [prove_loop_some]
    simp [foldTrace]
  unfold prove_recursively
  cases parallel
  · rw [show (if (false : Bool) then precache wf sched (s0 :: rest)
          else s0 :: rest) = s0 :: rest from rfl, key]
  · rw [show (if (true : Bool) then precache wf sched (s0 :: rest)
          else s0 :: rest) = precache wf sched (s0 :: rest) from rfl,
        prove_loop_precache, key]

end Supernova
